import Mathlib

/-!
Verification of the Hack VM-to-assembly translator (Go, `main.go`, latest revision).

The development has two layers:

* a string layer that mirrors the Go emission functions line by line
  (`handlePush`, `handlePop`, `function`, `callFunction`, `label`, ...,
  `parseCommand`, `Parser.Parse`), with the mutable globals
  (`funcStack`, `eqCount`, `gtCount`, `ltCount`) threaded as an explicit
  `TransState`, and Go's fallible functions returning `Except`;

* a semantic layer: a small Hack-machine interpreter (`run`) over an
  instruction AST (`Instr`); the emitted instruction sequences are
  transcribed into that AST (`...Asm` definitions), and `render` theorems
  connect each transcription to the corresponding string emission.

Machine integers are modelled as `Int` with explicit 16-bit wraparound
(`wrap16`) applied by every ALU operation, as on the 16-bit Hack target.
-/

namespace VMT

/-- Sixteen-bit two's-complement wraparound applied by the Hack ALU. -/
def wrap16 (x : Int) : Int := (x + 32768) % 65536 - 32768

/-- Memory update; the Hack RAM is modelled as a total function on `Int`. -/
def writeMem (m : Int → Int) (a v : Int) : Int → Int :=
  fun x => if x = a then v else m x

/-- An `@`-operand: a numeric literal (`@5`) or a symbolic name (`@SP`, `@CALL`). -/
inductive Sym where
  | num (n : Int)
  | name (s : String)
deriving DecidableEq

/-- Destination field of a Hack C-instruction, as used by the emitted code. -/
inductive Dest where
  | A | D | M | AM
deriving DecidableEq

/-- Computation field of a Hack C-instruction, as used by the emitted code. -/
inductive Comp where
  | zero | negOne | cA | cD | cM
  | Mplus1 | Mminus1 | Aminus1
  | DplusA | DplusM | DminusA | DminusM | MminusD
  | negM | notM | DandM | DorM
deriving DecidableEq

/-- Jump field of a Hack C-instruction, as used by the emitted code. -/
inductive Jmp where
  | JGE | JLE | JNE | JMP
deriving DecidableEq

/-- One emitted assembly line: a label definition `(X)`, an address
instruction `@sym`, or a C-instruction `dest=comp;jump`. -/
inductive Instr where
  | label (s : String)
  | ai (sym : Sym)
  | c (dest : Option Dest) (comp : Comp) (jmp : Option Jmp)
deriving DecidableEq

/-- Hack CPU state: the `A` and `D` registers and the RAM. `SP`, `LCL`,
`ARG`, `THIS`, `THAT`, `R5`, `R13`-`R15` live in RAM cells 0-15. -/
structure Mach where
  a : Int
  d : Int
  mem : Int → Int

/-- Predefined register symbols of the Hack platform. -/
def regAddr : String → Option Int
  | "SP" => some 0
  | "LCL" => some 1
  | "ARG" => some 2
  | "THIS" => some 3
  | "THAT" => some 4
  | "R5" => some 5
  | "R13" => some 13
  | "R14" => some 14
  | "R15" => some 15
  | _ => none

/-- Position of the label `(s)` in an instruction list (list length if absent,
which falls outside the program and halts execution when jumped to). -/
def labelIdx : List Instr → String → Nat
  | [], _ => 0
  | .label t :: rest, s => if t = s then 0 else labelIdx rest s + 1
  | _ :: rest, s => labelIdx rest s + 1

/-- Value loaded by `@sym`: a literal, a register address, or a label position. -/
def resolve (prog : List Instr) : Sym → Int
  | .num n => n
  | .name s =>
    match regAddr s with
    | some a => a
    | none => ((labelIdx prog s : Nat) : Int)

/-- Instruction at a program counter. -/
def fetch : List Instr → Nat → Option Instr
  | [], _ => none
  | i :: _, 0 => some i
  | _ :: rest, n + 1 => fetch rest n

/-- Hack ALU: `M` denotes `RAM[A]`; arithmetic results wrap at 16 bits. -/
def evalComp (m : Mach) : Comp → Int
  | .zero => 0
  | .negOne => -1
  | .cA => m.a
  | .cD => m.d
  | .cM => m.mem m.a
  | .Mplus1 => wrap16 (m.mem m.a + 1)
  | .Mminus1 => wrap16 (m.mem m.a - 1)
  | .Aminus1 => wrap16 (m.a - 1)
  | .DplusA => wrap16 (m.d + m.a)
  | .DplusM => wrap16 (m.d + m.mem m.a)
  | .DminusA => wrap16 (m.d - m.a)
  | .DminusM => wrap16 (m.d - m.mem m.a)
  | .MminusD => wrap16 (m.mem m.a - m.d)
  | .negM => wrap16 (-(m.mem m.a))
  | .notM => wrap16 (-(m.mem m.a) - 1)
  | .DandM => Int.land m.d (m.mem m.a)
  | .DorM => Int.lor m.d (m.mem m.a)

/-- Store a computed value; an `M` write goes to `RAM[A]` at the old `A`. -/
def writeDest (m : Mach) (v : Int) : Dest → Mach
  | .A => { m with a := v }
  | .D => { m with d := v }
  | .M => { m with mem := writeMem m.mem m.a v }
  | .AM => { m with a := v, mem := writeMem m.mem m.a v }

/-- Jump condition on the computed value. -/
def jumpTaken (j : Jmp) (v : Int) : Bool :=
  match j with
  | .JGE => decide (0 ≤ v)
  | .JLE => decide (v ≤ 0)
  | .JNE => decide (v ≠ 0)
  | .JMP => true

/-- Apply an optional destination. -/
def applyDest (m : Mach) (v : Int) : Option Dest → Mach
  | none => m
  | some dst => writeDest m v dst

/-- Next program counter: a taken jump goes to the address in `A`. -/
def nextPc (pc : Nat) (m' : Mach) (v : Int) : Option Jmp → Nat
  | none => pc + 1
  | some j => if jumpTaken j v then m'.a.toNat else pc + 1

/-- Fuelled interpreter; halts when the program counter leaves the program. -/
def run (prog : List Instr) : Nat → Nat → Mach → Nat × Mach
  | 0, pc, m => (pc, m)
  | fuel + 1, pc, m =>
    match fetch prog pc with
    | none => (pc, m)
    | some (.label _) => run prog fuel (pc + 1) m
    | some (.ai s) => run prog fuel (pc + 1) { m with a := resolve prog s }
    | some (.c dest comp jmp) =>
      run prog fuel (nextPc pc (applyDest m (evalComp m comp) dest) (evalComp m comp) jmp)
        (applyDest m (evalComp m comp) dest)

/-- Decimal digit to character. -/
def digitChar (d : Nat) : Char := Char.ofNat (48 + d)

/-- Least-significant-first decimal digits, fuelled so that it is
structurally recursive (the fuel `n` itself always suffices). -/
def natDigitsAux : Nat → Nat → List Nat
  | 0, _ => []
  | _ + 1, 0 => []
  | fuel + 1, n + 1 => ((n + 1) % 10) :: natDigitsAux fuel ((n + 1) / 10)

/-- Numeric value of a least-significant-first digit list. -/
def fromDigits : List Nat → Nat
  | [] => 0
  | d :: rest => d + 10 * fromDigits rest

/-- Decimal rendering of a natural number. -/
def natRepr (n : Nat) : String :=
  if n = 0 then "0" else (((natDigitsAux n n).reverse).map digitChar).asString

/-- Model of Go's decimal integer formatting (`strconv.Itoa`, `fmt` `%d`). -/
def intRepr (n : Int) : String :=
  if n < 0 then "-" ++ natRepr (-n).toNat else natRepr n.toNat

/-- Decimal value of a digit character, if it is one. -/
def digitVal (ch : Char) : Option Nat :=
  if 48 ≤ ch.toNat ∧ ch.toNat ≤ 57 then some (ch.toNat - 48) else none

/-- Accumulating decimal reading of a digit list; any non-digit fails. -/
def digitsToNat : List Char → Nat → Option Nat
  | [], acc => some acc
  | ch :: rest, acc =>
    match digitVal ch with
    | none => none
    | some d => digitsToNat rest (acc * 10 + d)

/-- Model of Go's `strconv.Atoi`: an optional sign followed by one or more
digits; anything else is an error, rendered here as `none`. -/
def atoi (s : String) : Option Int :=
  match s.data with
  | [] => none
  | '-' :: rest =>
    match rest with
    | [] => none
    | _ :: _ => (digitsToNat rest 0).map (fun n => -(n : Int))
  | '+' :: rest =>
    match rest with
    | [] => none
    | _ :: _ => (digitsToNat rest 0).map (fun n => (n : Int))
  | l => (digitsToNat l 0).map (fun n => (n : Int))

/-- Model of Go's `strings.Join(lines, sep)`. -/
def joinSep (sep : String) : List String → String
  | [] => ""
  | [a] => a
  | a :: b :: rest => a ++ sep ++ joinSep sep (b :: rest)

/-- Model of Go's `strings.Fields` (split on whitespace runs). -/
def fields (s : String) : List String :=
  (s.split Char.isWhitespace).filter (fun t => t ≠ "")

/-- The scratch register holding a resolved target address (`locRegister`). -/
def locRegister : String := "@R13"

/-- The scratch register holding a transferred value (`valueRegister`). -/
def valueRegister : String := "@R14"

/-- The `Stack` struct of the translator: the current function context and
the return-address counter. -/
structure Stack where
  current : String
  returnCounter : Int
deriving DecidableEq

/-- All mutable globals of the translator threaded explicitly: `funcStack`
and the three comparison counters `eqCount`, `gtCount`, `ltCount`. -/
structure TransState where
  funcStack : Stack
  eqCount : Int
  gtCount : Int
  ltCount : Int
deriving DecidableEq

/-- Initial global state: `funcStack = {current: "Sys.init", returnCounter: 0}`
and all comparison counters zero. -/
def initialState : TransState :=
  ⟨⟨"Sys.init", 0⟩, 0, 0, 0⟩

/-- The `constructedLabel` local of `label`, `gotoLabel` and `ifGoto`:
the current function's surface name, `$`, and the label name. -/
def constructedLabelOf (st : TransState) (l : String) : String :=
  st.funcStack.current ++ "$" ++ l

/-- Emission for a `label` command. -/
def label (st : TransState) (l : String) : String :=
  "(" ++ constructedLabelOf st l ++ ")" ++ "\n"

/-- Emission for a `goto` command. -/
def gotoLabel (st : TransState) (l : String) : String :=
  joinSep "\n" ["@" ++ constructedLabelOf st l, "0;JMP"] ++ "\n"

/-- Emission for an `if-goto` command. -/
def ifGoto (st : TransState) (l : String) : String :=
  joinSep "\n" ["@SP", "AM=M-1", "D=M", "@" ++ constructedLabelOf st l, "D;JNE"] ++ "\n"

/-- Emission for a `return` command: a jump to the shared RETURN routine. -/
def returnFromFunction : String :=
  joinSep "\n" ["@RETURN", "0;JMP"] ++ "\n"

/-- The entry label emitted by `function`: `(<folder>.<name>)`. -/
def functionEntryLabel (folder name : String) : String :=
  "(" ++ (folder ++ "." ++ name) ++ ")"

/-- The block zero-initialising one local variable slot. -/
def initLocalVariable : List String :=
  ["@SP", "A=M", "M=0", "@SP", "M=M+1"]

/-- Emission for a `function name nVars` command; also updates the current
function context. The `folder` argument models `getFolderName()`, the base
name of the path being translated (one value for the whole translation). -/
def function (folder name nVars : String) (st : TransState) :
    Except String (String × TransState) :=
  match atoi nVars with
  | none => .error ("invalid vars for function definition (" ++ name ++ "): " ++ nVars)
  | some numVars =>
    let st' : TransState := { st with funcStack := { st.funcStack with current := name } }
    let lines := functionEntryLabel folder name ::
      (List.replicate numVars.toNat initLocalVariable).flatten
    .ok (joinSep "\n" lines ++ "\n", st')

/-- The `returnLabel` local of `callFunction`:
`<folder>.<callingFunction>$ret<counter>`. -/
def returnLabel (folder : String) (st : TransState) : String :=
  folder ++ "." ++ st.funcStack.current ++ "$ret" ++ intRepr st.funcStack.returnCounter

/-- Emission for a `call name nArgs` command: stash the callee address in
`R13` and the argument count in `R14`, load the synthesised return address
into `D`, jump to the shared CALL routine, and place the return label; the
global return counter is incremented. -/
def callFunction (folder name nArgs : String) (st : TransState) :
    Except String (String × TransState) :=
  match atoi nArgs with
  | none => .error ("invalid args to function (" ++ name ++ "): " ++ nArgs)
  | some numArgs =>
    let ret := returnLabel folder st
    let lines :=
      ["@" ++ (folder ++ "." ++ name), "D=A", locRegister, "M=D",
       "@" ++ intRepr numArgs, "D=A", valueRegister, "M=D",
       "@" ++ ret, "D=A",
       "@CALL", "0;JMP",
       "(" ++ ret ++ ")"]
    .ok (joinSep "\n" lines ++ "\n",
      { st with funcStack := { st.funcStack with
          returnCounter := st.funcStack.returnCounter + 1 } })

/-- Emission for `add`. -/
def add : String :=
  joinSep "\n" ["@SP", "AM=M-1", "D=M", "A=A-1", "M=D+M"]

/-- Emission for `sub`. -/
def sub : String :=
  joinSep "\n" ["@SP", "AM=M-1", "D=M", "A=A-1", "M=M-D"]

/-- Emission for `neg`. -/
def neg : String :=
  joinSep "\n" ["@SP", "AM=M-1", "M=-M", "@SP", "M=M+1"]

/-- Emission for `and`. -/
def and : String :=
  joinSep "\n" ["@SP", "AM=M-1", "D=M", "A=A-1", "M=D&M"]

/-- Emission for `or`. -/
def or : String :=
  joinSep "\n" ["@SP", "AM=M-1", "D=M", "A=A-1", "M=D|M"]

/-- Emission for `not`. -/
def not : String :=
  joinSep "\n" ["@SP", "AM=M-1", "M=!M", "@SP", "M=M+1"]

/-- Emission for `eq`: a per-site jump into the shared EQ routine with a
unique synthesised return address; increments `eqCount`. -/
def eq (st : TransState) : String × TransState :=
  let retAddress := "RET_ADDRESS_EQ" ++ intRepr st.eqCount
  (joinSep "\n" ["@" ++ retAddress, "D=A", "@EQ", "0;JMP", "(" ++ retAddress ++ ")"],
   { st with eqCount := st.eqCount + 1 })

/-- Emission for `gt`; increments `gtCount`. -/
def gt (st : TransState) : String × TransState :=
  let retAddress := "RET_ADDRESS_GT" ++ intRepr st.gtCount
  (joinSep "\n" ["@" ++ retAddress, "D=A", "@GT", "0;JMP", "(" ++ retAddress ++ ")"],
   { st with gtCount := st.gtCount + 1 })

/-- Emission for `lt`; increments `ltCount`. -/
def lt (st : TransState) : String × TransState :=
  let retAddress := "RET_ADDRESS_LT" ++ intRepr st.ltCount
  (joinSep "\n" ["@" ++ retAddress, "D=A", "@LT", "0;JMP", "(" ++ retAddress ++ ")"],
   { st with ltCount := st.ltCount + 1 })

/-- Dispatch for single-token operation commands. -/
def operation (op : String) (st : TransState) : Except String (String × TransState) :=
  match op with
  | "add" => .ok (add, st)
  | "sub" => .ok (sub, st)
  | "neg" => .ok (neg, st)
  | "eq" => .ok (eq st)
  | "gt" => .ok (gt st)
  | "lt" => .ok (lt st)
  | "and" => .ok (and, st)
  | "or" => .ok (or, st)
  | "not" => .ok (not, st)
  | _ => .error ("invalid operation: " ++ op)

/-- The instruction lines emitted for `push segment index`; an unmatched
segment leaves the line list empty (the Go `switch` has no default case). -/
def handlePushLines (currentFile segment : String) (index : Int) : List String :=
  match segment with
  | "constant" =>
    ["@" ++ intRepr index, "D=A", "@SP", "AM=M+1", "A=A-1", "M=D"]
  | "argument" =>
    if index = 0 then
      ["@ARG", "A=M", "D=M", "@SP", "AM=M+1", "A=A-1", "M=D"]
    else
      ["@" ++ intRepr index, "D=A", "@ARG", "A=M", "D=D+A", "A=D", "D=M",
       "@SP", "AM=M+1", "A=A-1", "M=D"]
  | "local" =>
    if index = 0 then
      ["@LCL", "A=M", "D=M", "@SP", "AM=M+1", "A=A-1", "M=D"]
    else
      ["@" ++ intRepr index, "D=A", "@LCL", "A=M", "D=D+A", "A=D", "D=M",
       "@SP", "AM=M+1", "A=A-1", "M=D"]
  | "static" =>
    ["@" ++ currentFile ++ "." ++ intRepr index, "D=M", "@SP", "AM=M+1", "A=A-1", "M=D"]
  | "this" =>
    if index = 0 then
      ["@THIS", "A=M", "D=M", "@SP", "AM=M+1", "A=A-1", "M=D"]
    else
      ["@" ++ intRepr index, "D=A", "@THIS", "A=D+M", "D=M",
       "@SP", "AM=M+1", "A=A-1", "M=D"]
  | "that" =>
    if index = 0 then
      ["@THAT", "A=M", "D=M", "@SP", "AM=M+1", "A=A-1", "M=D"]
    else
      ["@" ++ intRepr index, "D=A", "@THAT", "A=D+M", "D=M",
       "@SP", "AM=M+1", "A=A-1", "M=D"]
  | "pointer" =>
    if index = 0 then
      ["@THIS", "D=M", "@SP", "AM=M+1", "A=A-1", "M=D"]
    else if index = 1 then
      ["@THAT", "D=M", "@SP", "AM=M+1", "A=A-1", "M=D"]
    else []
  | "temp" =>
    ["@" ++ intRepr (index + 5), "D=M", "@SP", "AM=M+1", "A=A-1", "M=D"]
  | _ => []

/-- Emission for `push segment index` (joined lines plus a newline; the
empty line list yields the single empty line `"\n"`). -/
def handlePush (currentFile segment : String) (index : Int) : String :=
  joinSep "\n" (handlePushLines currentFile segment index) ++ "\n"

/-- The instruction lines emitted for `pop segment index`; an unmatched
segment leaves the line list empty (the Go `switch` has no default case,
and in particular has no `constant` case). -/
def handlePopLines (currentFile segment : String) (index : Int) : List String :=
  match segment with
  | "argument" =>
    if index = 0 then
      ["@SP", "AM=M-1", "D=M", "@ARG", "A=M", "M=D"]
    else
      ["@" ++ intRepr index, "D=A", "@ARG", "A=D+M", "D=A", locRegister, "M=D",
       "@SP", "AM=M-1", "D=M", locRegister, "A=M", "M=D"]
  | "local" =>
    if index = 0 then
      ["@SP", "AM=M-1", "D=M", "@LCL", "A=M", "M=D"]
    else
      ["@" ++ intRepr index, "D=A", "@LCL", "A=D+M", "D=A", locRegister, "M=D",
       "@SP", "AM=M-1", "D=M", locRegister, "A=M", "M=D"]
  | "static" =>
    ["@SP", "AM=M-1", "D=M", "@" ++ currentFile ++ "." ++ intRepr index, "M=D"]
  | "this" =>
    if index = 0 then
      ["@SP", "AM=M-1", "D=M", "@THIS", "A=M", "M=D"]
    else
      ["@" ++ intRepr index, "D=A", "@THIS", "A=D+M", "D=A", locRegister, "M=D",
       "@SP", "AM=M-1", "D=M", locRegister, "A=M", "M=D"]
  | "that" =>
    if index = 0 then
      ["@SP", "AM=M-1", "D=M", "@THAT", "A=M", "M=D"]
    else
      ["@" ++ intRepr index, "D=A", "@THAT", "A=D+M", "D=A", locRegister, "M=D",
       "@SP", "AM=M-1", "D=M", locRegister, "A=M", "M=D"]
  | "pointer" =>
    if index = 0 then
      ["@SP", "AM=M-1", "D=M", "@THIS", "M=D"]
    else if index = 1 then
      ["@SP", "AM=M-1", "D=M", "@THAT", "M=D"]
    else []
  | "temp" =>
    ["@SP", "AM=M-1", "D=M", "@" ++ intRepr (index + 5), "M=D"]
  | _ => []

/-- Emission for `pop segment index` (joined lines plus a newline). -/
def handlePop (currentFile segment : String) (index : Int) : String :=
  joinSep "\n" (handlePopLines currentFile segment index) ++ "\n"

/-- The command dispatch of `parseCommand`, on an already-tokenised line.
Where the Go code would panic on a missing token (`command[1]`,
`command[2]`), the model reads an empty string instead; no claim depends
on those malformed inputs. -/
def parseCommandParts (folder currentFile : String) (command : List String)
    (st : TransState) : Except String (String × TransState) :=
  match command with
  | [] => .error "empty command"
  | first :: _ =>
    if first = "function" then
      function folder (command.getD 1 "") (command.getD 2 "") st
    else if first = "call" then
      callFunction folder (command.getD 1 "") (command.getD 2 "") st
    else if first = "return" then
      .ok (returnFromFunction, st)
    else if first = "goto" then
      .ok (gotoLabel st (command.getD 1 ""), st)
    else if first = "if-goto" then
      .ok (ifGoto st (command.getD 1 ""), st)
    else if first = "label" then
      .ok (label st (command.getD 1 ""), st)
    else if command.length = 1 then
      match operation first st with
      | .error e => .error e
      | .ok (out, st') => .ok (out ++ "\n", st')
    else
      match atoi (command.getD 2 "") with
      | some num =>
        if first = "push" then .ok (handlePush currentFile (command.getD 1 "") num, st)
        else if first = "pop" then .ok (handlePop currentFile (command.getD 1 "") num, st)
        else .error ("invalid command: " ++ joinSep " " command)
      | none => .error ("invalid command: " ++ joinSep " " command)

/-- Line-level `parseCommand`: tokenise with `strings.Fields` and dispatch. -/
def parseCommand (folder currentFile line : String) (st : TransState) :
    Except String (String × TransState) :=
  parseCommandParts folder currentFile (fields line) st

/-- The `Parser.Parse` loop: trim each line, skip blank and comment lines,
strip trailing comments, translate, and abort on the first error. -/
def ParseLines (folder currentFile : String) :
    List String → TransState → Except String (List String × TransState)
  | [], st => .ok ([], st)
  | l :: rest, st =>
    let line := l.trim
    if line.startsWith "//" ∨ line = "" then ParseLines folder currentFile rest st
    else
      let cleaned := ((line.splitOn "//").headD "").trim
      match parseCommand folder currentFile cleaned st with
      | .error e => .error e
      | .ok (out, st') =>
        match ParseLines folder currentFile rest st' with
        | .error e => .error e
        | .ok (outs, st'') => .ok (out :: outs, st'')

/-- Rendering of an `@`-operand back to its assembly text. -/
def Sym.render : Sym → String
  | .num n => intRepr n
  | .name s => s

/-- Rendering of a destination field. -/
def Dest.render : Dest → String
  | .A => "A"
  | .D => "D"
  | .M => "M"
  | .AM => "AM"

/-- Rendering of a computation field. -/
def Comp.render : Comp → String
  | .zero => "0"
  | .negOne => "-1"
  | .cA => "A"
  | .cD => "D"
  | .cM => "M"
  | .Mplus1 => "M+1"
  | .Mminus1 => "M-1"
  | .Aminus1 => "A-1"
  | .DplusA => "D+A"
  | .DplusM => "D+M"
  | .DminusA => "D-A"
  | .DminusM => "D-M"
  | .MminusD => "M-D"
  | .negM => "-M"
  | .notM => "!M"
  | .DandM => "D&M"
  | .DorM => "D|M"

/-- Rendering of a jump field. -/
def Jmp.render : Jmp → String
  | .JGE => "JGE"
  | .JLE => "JLE"
  | .JNE => "JNE"
  | .JMP => "JMP"

/-- Rendering of an instruction back to the emitted assembly line. -/
def Instr.render : Instr → String
  | .label s => "(" ++ s ++ ")"
  | .ai sym => "@" ++ sym.render
  | .c none comp none => comp.render
  | .c (some d) comp none => d.render ++ "=" ++ comp.render
  | .c none comp (some j) => comp.render ++ ";" ++ j.render
  | .c (some d) comp (some j) => d.render ++ "=" ++ comp.render ++ ";" ++ j.render

/-- The lines of the shared RETURN routine, as emitted by
`createReturnRoutine`. -/
def returnRoutineLines : List String :=
  ["(RETURN)",
   "@5", "D=A", "@LCL", "A=M-D", "D=M", locRegister, "M=D",
   "@SP", "M=M-1", "A=M", "D=M", "@ARG", "A=M", "M=D",
   "@ARG", "D=M+1", "@SP", "M=D",
   "@LCL", "A=M-1", "D=M", "@THAT", "M=D",
   "@LCL", "D=M", "@2", "D=D-A", "A=D", "D=M", "@THIS", "M=D",
   "@LCL", "D=M", "@3", "D=D-A", "A=D", "D=M", "@ARG", "M=D",
   "@LCL", "D=M", "@4", "D=D-A", "A=D", "D=M", "@LCL", "M=D",
   locRegister, "A=M", "0;JMP"]

/-- Emission of the shared RETURN routine (one joined block). -/
def createReturnRoutine : List String :=
  [joinSep "\n" returnRoutineLines ++ "\n"]

/-- The lines of the shared CALL routine, as emitted by `createCallRoutine`. -/
def callRoutineLines : List String :=
  ["(CALL)",
   "@SP", "A=M", "M=D", "@SP", "M=M+1",
   "@LCL", "D=M", "@SP", "A=M", "M=D", "@SP", "M=M+1",
   "@ARG", "D=M", "@SP", "A=M", "M=D", "@SP", "M=M+1",
   "@THIS", "D=M", "@SP", "A=M", "M=D", "@SP", "M=M+1",
   "@THAT", "D=M", "@SP", "A=M", "M=D", "@SP", "M=M+1",
   "@SP", "D=M", valueRegister, "D=D-M", "@5", "D=D-A", "@ARG", "M=D",
   "@SP", "D=M", "@LCL", "M=D",
   locRegister, "A=M", "0;JMP"]

/-- Emission of the shared CALL routine (one joined block). -/
def createCallRoutine : List String :=
  [joinSep "\n" callRoutineLines ++ "\n"]

/-- The lines of the shared LT routine, as emitted by `createLtRoutine`. -/
def ltRoutineLines : List String :=
  ["(LT)", "@R15", "M=D",
   "@SP", "AM=M-1", "D=M", "@SP", "AM=M-1", "D=M-D", "M=0",
   "@END_LT", "D;JGE",
   "@SP", "A=M", "M=-1",
   "(END_LT)",
   "@SP", "M=M+1",
   "@R15", "A=M", "0;JMP"]

/-- Emission of the shared LT routine (one joined block). -/
def createLtRoutine : List String :=
  [joinSep "\n" ltRoutineLines ++ "\n"]

/-- The lines of the shared GT routine, as emitted by `createGtRoutine`. -/
def gtRoutineLines : List String :=
  ["(GT)", "@R15", "M=D",
   "@SP", "AM=M-1", "D=M", "@SP", "AM=M-1", "D=M-D", "M=0",
   "@END_GT", "D;JLE",
   "@SP", "A=M", "M=-1",
   "(END_GT)",
   "@SP", "M=M+1",
   "@R15", "A=M", "0;JMP"]

/-- Emission of the shared GT routine (one joined block). -/
def createGtRoutine : List String :=
  [joinSep "\n" gtRoutineLines ++ "\n"]

/-- The lines of the shared EQ routine, as emitted by `createEqRoutine`. -/
def eqRoutineLines : List String :=
  ["(EQ)", "@R15", "M=D",
   "@SP", "AM=M-1", "D=M", "@SP", "AM=M-1", "D=M-D", "M=0",
   "@END_EQ", "D;JNE",
   "@SP", "A=M", "M=-1",
   "(END_EQ)",
   "@SP", "M=M+1",
   "@R15", "A=M", "0;JMP"]

/-- Emission of the shared EQ routine (one joined block). -/
def createEqRoutine : List String :=
  [joinSep "\n" eqRoutineLines ++ "\n"]

/-- Assembly form of `returnRoutineLines`. -/
def createReturnRoutineAsm : List Instr :=
  [.label "RETURN",
   .ai (.num 5), .c (some .D) .cA none, .ai (.name "LCL"), .c (some .A) .MminusD none,
   .c (some .D) .cM none, .ai (.name "R13"), .c (some .M) .cD none,
   .ai (.name "SP"), .c (some .M) .Mminus1 none, .c (some .A) .cM none,
   .c (some .D) .cM none, .ai (.name "ARG"), .c (some .A) .cM none, .c (some .M) .cD none,
   .ai (.name "ARG"), .c (some .D) .Mplus1 none, .ai (.name "SP"), .c (some .M) .cD none,
   .ai (.name "LCL"), .c (some .A) .Mminus1 none, .c (some .D) .cM none,
   .ai (.name "THAT"), .c (some .M) .cD none,
   .ai (.name "LCL"), .c (some .D) .cM none, .ai (.num 2), .c (some .D) .DminusA none,
   .c (some .A) .cD none, .c (some .D) .cM none, .ai (.name "THIS"), .c (some .M) .cD none,
   .ai (.name "LCL"), .c (some .D) .cM none, .ai (.num 3), .c (some .D) .DminusA none,
   .c (some .A) .cD none, .c (some .D) .cM none, .ai (.name "ARG"), .c (some .M) .cD none,
   .ai (.name "LCL"), .c (some .D) .cM none, .ai (.num 4), .c (some .D) .DminusA none,
   .c (some .A) .cD none, .c (some .D) .cM none, .ai (.name "LCL"), .c (some .M) .cD none,
   .ai (.name "R13"), .c (some .A) .cM none, .c none .zero (some .JMP)]

/-- Assembly form of `callRoutineLines`. -/
def createCallRoutineAsm : List Instr :=
  [.label "CALL",
   .ai (.name "SP"), .c (some .A) .cM none, .c (some .M) .cD none,
   .ai (.name "SP"), .c (some .M) .Mplus1 none,
   .ai (.name "LCL"), .c (some .D) .cM none,
   .ai (.name "SP"), .c (some .A) .cM none, .c (some .M) .cD none,
   .ai (.name "SP"), .c (some .M) .Mplus1 none,
   .ai (.name "ARG"), .c (some .D) .cM none,
   .ai (.name "SP"), .c (some .A) .cM none, .c (some .M) .cD none,
   .ai (.name "SP"), .c (some .M) .Mplus1 none,
   .ai (.name "THIS"), .c (some .D) .cM none,
   .ai (.name "SP"), .c (some .A) .cM none, .c (some .M) .cD none,
   .ai (.name "SP"), .c (some .M) .Mplus1 none,
   .ai (.name "THAT"), .c (some .D) .cM none,
   .ai (.name "SP"), .c (some .A) .cM none, .c (some .M) .cD none,
   .ai (.name "SP"), .c (some .M) .Mplus1 none,
   .ai (.name "SP"), .c (some .D) .cM none,
   .ai (.name "R14"), .c (some .D) .DminusM none,
   .ai (.num 5), .c (some .D) .DminusA none,
   .ai (.name "ARG"), .c (some .M) .cD none,
   .ai (.name "SP"), .c (some .D) .cM none,
   .ai (.name "LCL"), .c (some .M) .cD none,
   .ai (.name "R13"), .c (some .A) .cM none, .c none .zero (some .JMP)]

/-- Assembly form of `ltRoutineLines`. -/
def createLtRoutineAsm : List Instr :=
  [.label "LT",
   .ai (.name "R15"), .c (some .M) .cD none,
   .ai (.name "SP"), .c (some .AM) .Mminus1 none, .c (some .D) .cM none,
   .ai (.name "SP"), .c (some .AM) .Mminus1 none, .c (some .D) .MminusD none,
   .c (some .M) .zero none,
   .ai (.name "END_LT"), .c none .cD (some .JGE),
   .ai (.name "SP"), .c (some .A) .cM none, .c (some .M) .negOne none,
   .label "END_LT",
   .ai (.name "SP"), .c (some .M) .Mplus1 none,
   .ai (.name "R15"), .c (some .A) .cM none, .c none .zero (some .JMP)]

/-- Assembly form of `gtRoutineLines`. -/
def createGtRoutineAsm : List Instr :=
  [.label "GT",
   .ai (.name "R15"), .c (some .M) .cD none,
   .ai (.name "SP"), .c (some .AM) .Mminus1 none, .c (some .D) .cM none,
   .ai (.name "SP"), .c (some .AM) .Mminus1 none, .c (some .D) .MminusD none,
   .c (some .M) .zero none,
   .ai (.name "END_GT"), .c none .cD (some .JLE),
   .ai (.name "SP"), .c (some .A) .cM none, .c (some .M) .negOne none,
   .label "END_GT",
   .ai (.name "SP"), .c (some .M) .Mplus1 none,
   .ai (.name "R15"), .c (some .A) .cM none, .c none .zero (some .JMP)]

/-- Assembly form of `eqRoutineLines`. -/
def createEqRoutineAsm : List Instr :=
  [.label "EQ",
   .ai (.name "R15"), .c (some .M) .cD none,
   .ai (.name "SP"), .c (some .AM) .Mminus1 none, .c (some .D) .cM none,
   .ai (.name "SP"), .c (some .AM) .Mminus1 none, .c (some .D) .MminusD none,
   .c (some .M) .zero none,
   .ai (.name "END_EQ"), .c none .cD (some .JNE),
   .ai (.name "SP"), .c (some .A) .cM none, .c (some .M) .negOne none,
   .label "END_EQ",
   .ai (.name "SP"), .c (some .M) .Mplus1 none,
   .ai (.name "R15"), .c (some .A) .cM none, .c none .zero (some .JMP)]

/-- Assembly form of the `return` command emission. -/
def returnFromFunctionAsm : List Instr :=
  [.ai (.name "RETURN"), .c none .zero (some .JMP)]

/-- Assembly form of the `call` site emission of `callFunction`, with the
callee entry label, the argument count and the synthesised return label. -/
def callSiteAsm (calleeLabel : String) (numArgs : Int) (retLabel : String) : List Instr :=
  [.ai (.name calleeLabel), .c (some .D) .cA none,
   .ai (.name "R13"), .c (some .M) .cD none,
   .ai (.num numArgs), .c (some .D) .cA none,
   .ai (.name "R14"), .c (some .M) .cD none,
   .ai (.name retLabel), .c (some .D) .cA none,
   .ai (.name "CALL"), .c none .zero (some .JMP),
   .label retLabel]

/-- Assembly form of `initLocalVariable`. -/
def initLocalVariableAsm : List Instr :=
  [.ai (.name "SP"), .c (some .A) .cM none, .c (some .M) .zero none,
   .ai (.name "SP"), .c (some .M) .Mplus1 none]

/-- Assembly form of the `function` emission: entry label and local zeroing. -/
def functionAsm (folder name : String) (numVars : Nat) : List Instr :=
  .label (folder ++ "." ++ name) :: (List.replicate numVars initLocalVariableAsm).flatten

/-- Assembly form of the `sub` emission. -/
def subAsm : List Instr :=
  [.ai (.name "SP"), .c (some .AM) .Mminus1 none, .c (some .D) .cM none,
   .c (some .A) .Aminus1 none, .c (some .M) .MminusD none]

/-- Assembly form of the `eq` site emission at counter value `c`. -/
def eqSiteAsm (c : Int) : List Instr :=
  [.ai (.name ("RET_ADDRESS_EQ" ++ intRepr c)), .c (some .D) .cA none,
   .ai (.name "EQ"), .c none .zero (some .JMP),
   .label ("RET_ADDRESS_EQ" ++ intRepr c)]

/-- Assembly form of the `gt` site emission at counter value `c`. -/
def gtSiteAsm (c : Int) : List Instr :=
  [.ai (.name ("RET_ADDRESS_GT" ++ intRepr c)), .c (some .D) .cA none,
   .ai (.name "GT"), .c none .zero (some .JMP),
   .label ("RET_ADDRESS_GT" ++ intRepr c)]

/-- Assembly form of the `lt` site emission at counter value `c`. -/
def ltSiteAsm (c : Int) : List Instr :=
  [.ai (.name ("RET_ADDRESS_LT" ++ intRepr c)), .c (some .D) .cA none,
   .ai (.name "LT"), .c none .zero (some .JMP),
   .label ("RET_ADDRESS_LT" ++ intRepr c)]

/-- Assembly form of `handlePushLines`. -/
def handlePushAsm (currentFile segment : String) (index : Int) : List Instr :=
  match segment with
  | "constant" =>
    [.ai (.num index), .c (some .D) .cA none,
     .ai (.name "SP"), .c (some .AM) .Mplus1 none, .c (some .A) .Aminus1 none,
     .c (some .M) .cD none]
  | "argument" =>
    if index = 0 then
      [.ai (.name "ARG"), .c (some .A) .cM none, .c (some .D) .cM none,
       .ai (.name "SP"), .c (some .AM) .Mplus1 none, .c (some .A) .Aminus1 none,
       .c (some .M) .cD none]
    else
      [.ai (.num index), .c (some .D) .cA none,
       .ai (.name "ARG"), .c (some .A) .cM none, .c (some .D) .DplusA none,
       .c (some .A) .cD none, .c (some .D) .cM none,
       .ai (.name "SP"), .c (some .AM) .Mplus1 none, .c (some .A) .Aminus1 none,
       .c (some .M) .cD none]
  | "local" =>
    if index = 0 then
      [.ai (.name "LCL"), .c (some .A) .cM none, .c (some .D) .cM none,
       .ai (.name "SP"), .c (some .AM) .Mplus1 none, .c (some .A) .Aminus1 none,
       .c (some .M) .cD none]
    else
      [.ai (.num index), .c (some .D) .cA none,
       .ai (.name "LCL"), .c (some .A) .cM none, .c (some .D) .DplusA none,
       .c (some .A) .cD none, .c (some .D) .cM none,
       .ai (.name "SP"), .c (some .AM) .Mplus1 none, .c (some .A) .Aminus1 none,
       .c (some .M) .cD none]
  | "static" =>
    [.ai (.name (currentFile ++ "." ++ intRepr index)), .c (some .D) .cM none,
     .ai (.name "SP"), .c (some .AM) .Mplus1 none, .c (some .A) .Aminus1 none,
     .c (some .M) .cD none]
  | "this" =>
    if index = 0 then
      [.ai (.name "THIS"), .c (some .A) .cM none, .c (some .D) .cM none,
       .ai (.name "SP"), .c (some .AM) .Mplus1 none, .c (some .A) .Aminus1 none,
       .c (some .M) .cD none]
    else
      [.ai (.num index), .c (some .D) .cA none,
       .ai (.name "THIS"), .c (some .A) .DplusM none, .c (some .D) .cM none,
       .ai (.name "SP"), .c (some .AM) .Mplus1 none, .c (some .A) .Aminus1 none,
       .c (some .M) .cD none]
  | "that" =>
    if index = 0 then
      [.ai (.name "THAT"), .c (some .A) .cM none, .c (some .D) .cM none,
       .ai (.name "SP"), .c (some .AM) .Mplus1 none, .c (some .A) .Aminus1 none,
       .c (some .M) .cD none]
    else
      [.ai (.num index), .c (some .D) .cA none,
       .ai (.name "THAT"), .c (some .A) .DplusM none, .c (some .D) .cM none,
       .ai (.name "SP"), .c (some .AM) .Mplus1 none, .c (some .A) .Aminus1 none,
       .c (some .M) .cD none]
  | "pointer" =>
    if index = 0 then
      [.ai (.name "THIS"), .c (some .D) .cM none,
       .ai (.name "SP"), .c (some .AM) .Mplus1 none, .c (some .A) .Aminus1 none,
       .c (some .M) .cD none]
    else if index = 1 then
      [.ai (.name "THAT"), .c (some .D) .cM none,
       .ai (.name "SP"), .c (some .AM) .Mplus1 none, .c (some .A) .Aminus1 none,
       .c (some .M) .cD none]
    else []
  | "temp" =>
    [.ai (.num (index + 5)), .c (some .D) .cM none,
     .ai (.name "SP"), .c (some .AM) .Mplus1 none, .c (some .A) .Aminus1 none,
     .c (some .M) .cD none]
  | _ => []

/-- Assembly form of `handlePopLines`. -/
def handlePopAsm (currentFile segment : String) (index : Int) : List Instr :=
  match segment with
  | "argument" =>
    if index = 0 then
      [.ai (.name "SP"), .c (some .AM) .Mminus1 none, .c (some .D) .cM none,
       .ai (.name "ARG"), .c (some .A) .cM none, .c (some .M) .cD none]
    else
      [.ai (.num index), .c (some .D) .cA none,
       .ai (.name "ARG"), .c (some .A) .DplusM none, .c (some .D) .cA none,
       .ai (.name "R13"), .c (some .M) .cD none,
       .ai (.name "SP"), .c (some .AM) .Mminus1 none, .c (some .D) .cM none,
       .ai (.name "R13"), .c (some .A) .cM none, .c (some .M) .cD none]
  | "local" =>
    if index = 0 then
      [.ai (.name "SP"), .c (some .AM) .Mminus1 none, .c (some .D) .cM none,
       .ai (.name "LCL"), .c (some .A) .cM none, .c (some .M) .cD none]
    else
      [.ai (.num index), .c (some .D) .cA none,
       .ai (.name "LCL"), .c (some .A) .DplusM none, .c (some .D) .cA none,
       .ai (.name "R13"), .c (some .M) .cD none,
       .ai (.name "SP"), .c (some .AM) .Mminus1 none, .c (some .D) .cM none,
       .ai (.name "R13"), .c (some .A) .cM none, .c (some .M) .cD none]
  | "static" =>
    [.ai (.name "SP"), .c (some .AM) .Mminus1 none, .c (some .D) .cM none,
     .ai (.name (currentFile ++ "." ++ intRepr index)), .c (some .M) .cD none]
  | "this" =>
    if index = 0 then
      [.ai (.name "SP"), .c (some .AM) .Mminus1 none, .c (some .D) .cM none,
       .ai (.name "THIS"), .c (some .A) .cM none, .c (some .M) .cD none]
    else
      [.ai (.num index), .c (some .D) .cA none,
       .ai (.name "THIS"), .c (some .A) .DplusM none, .c (some .D) .cA none,
       .ai (.name "R13"), .c (some .M) .cD none,
       .ai (.name "SP"), .c (some .AM) .Mminus1 none, .c (some .D) .cM none,
       .ai (.name "R13"), .c (some .A) .cM none, .c (some .M) .cD none]
  | "that" =>
    if index = 0 then
      [.ai (.name "SP"), .c (some .AM) .Mminus1 none, .c (some .D) .cM none,
       .ai (.name "THAT"), .c (some .A) .cM none, .c (some .M) .cD none]
    else
      [.ai (.num index), .c (some .D) .cA none,
       .ai (.name "THAT"), .c (some .A) .DplusM none, .c (some .D) .cA none,
       .ai (.name "R13"), .c (some .M) .cD none,
       .ai (.name "SP"), .c (some .AM) .Mminus1 none, .c (some .D) .cM none,
       .ai (.name "R13"), .c (some .A) .cM none, .c (some .M) .cD none]
  | "pointer" =>
    if index = 0 then
      [.ai (.name "SP"), .c (some .AM) .Mminus1 none, .c (some .D) .cM none,
       .ai (.name "THIS"), .c (some .M) .cD none]
    else if index = 1 then
      [.ai (.name "SP"), .c (some .AM) .Mminus1 none, .c (some .D) .cM none,
       .ai (.name "THAT"), .c (some .M) .cD none]
    else []
  | "temp" =>
    [.ai (.name "SP"), .c (some .AM) .Mminus1 none, .c (some .D) .cM none,
     .ai (.num (index + 5)), .c (some .M) .cD none]
  | _ => []

/-- Base-pointer RAM cell of each indirect segment (`LCL`, `ARG`, `THIS`,
`THAT` occupy cells 1-4). -/
def segReg : String → Int
  | "local" => 1
  | "argument" => 2
  | "this" => 3
  | "that" => 4
  | _ => 0

/-- Program under test for the push/pop round trip of one segment slot. -/
def pushPopProg (currentFile segment : String) (index : Int) : List Instr :=
  handlePushAsm currentFile segment index ++ handlePopAsm currentFile segment index

/-- Program under test for `lt`: the shared routine followed by one call
site (counter value 0, written with its labels spelled out); execution
starts at the site, index 21. -/
def ltProgram : List Instr :=
  createLtRoutineAsm ++
  [.ai (.name "RET_ADDRESS_LT0"), .c (some .D) .cA none,
   .ai (.name "LT"), .c none .zero (some .JMP),
   .label "RET_ADDRESS_LT0"]

/-- Program under test for `gt`. -/
def gtProgram : List Instr :=
  createGtRoutineAsm ++
  [.ai (.name "RET_ADDRESS_GT0"), .c (some .D) .cA none,
   .ai (.name "GT"), .c none .zero (some .JMP),
   .label "RET_ADDRESS_GT0"]

/-- Program under test for `eq`. -/
def eqProgram : List Instr :=
  createEqRoutineAsm ++
  [.ai (.name "RET_ADDRESS_EQ0"), .c (some .D) .cA none,
   .ai (.name "EQ"), .c none .zero (some .JMP),
   .label "RET_ADDRESS_EQ0"]

/-- Program under test for call followed immediately by return: the shared
RETURN and CALL routines, the entry label of a callee `Prog.f` whose body
is just the `return` emission, and one call site for `n` arguments from
the default caller context (`Prog.Sys.init$ret0`); execution starts at the
call site, index 103. -/
def progC1 (n : Int) : List Instr :=
  createReturnRoutineAsm ++ createCallRoutineAsm ++
  [.label "Prog.f"] ++ returnFromFunctionAsm ++
  callSiteAsm "Prog.f" n "Prog.Sys.init$ret0"

/-- Concrete memory for the call/return witness: `SP = 260`, `LCL = 500`,
`ARG = 400`, `THIS = 3000`, `THAT = 3001`, all other cells `9`. -/
def c1mem : Int → Int := fun x =>
  if x = 0 then 260 else if x = 1 then 500 else if x = 2 then 400
  else if x = 3 then 3000 else if x = 4 then 3001 else 9

/-- Concrete memory for the `sub` witness: `SP = 300`, stack holding
`... , 20, 13` (so `20 - 13` is computed). -/
def c3mem : Int → Int := fun x =>
  if x = 0 then 300 else if x = 298 then 20 else if x = 299 then 13 else 0

/-- Concrete memory for the comparison witness: `SP = 302`, stack holding
`..., 7, 7`. -/
def c4mem : Int → Int := fun x =>
  if x = 0 then 302 else if x = 300 then 7 else if x = 301 then 7 else 0

/-- Concrete memory for the push/pop round-trip witness: `SP = 300`,
`LCL = 400`, `ARG = 410`, `THIS = 420`, `THAT = 430`, other cells `5`. -/
def c9mem : Int → Int := fun x =>
  if x = 0 then 300 else if x = 1 then 400 else if x = 2 then 410
  else if x = 3 then 420 else if x = 4 then 430 else 5

theorem strCancelRight {s t u : String} (h : s ++ u = t ++ u) : s = t := by
  have h2 := congrArg String.data h
  rw [String.data_append, String.data_append] at h2
  exact String.toList_inj.mp (List.append_cancel_right h2)

theorem strCancelLeft {s t u : String} (h : s ++ t = s ++ u) : t = u := by
  have h2 := congrArg String.data h
  rw [String.data_append, String.data_append] at h2
  exact String.toList_inj.mp (List.append_cancel_left h2)

theorem digitChar_toNat {d : Nat} (h : d < 10) : (digitChar d).toNat = 48 + d := by
  interval_cases d <;> decide

theorem digitChar_inj {d1 d2 : Nat} (h1 : d1 < 10) (h2 : d2 < 10)
    (h : digitChar d1 = digitChar d2) : d1 = d2 := by
  have h3 := congrArg Char.toNat h
  rw [digitChar_toNat h1, digitChar_toNat h2] at h3
  omega

theorem natDigitsAux_lt : ∀ (f n : Nat), ∀ d ∈ natDigitsAux f n, d < 10 := by
  intro f
  induction f with
  | zero => intro n d hd; simp [natDigitsAux] at hd
  | succ f ih =>
    intro n d hd
    cases n with
    | zero => simp [natDigitsAux] at hd
    | succ m =>
      simp only [natDigitsAux, List.mem_cons] at hd
      rcases hd with rfl | hd
      · exact Nat.mod_lt _ (by omega)
      · exact ih _ _ hd

theorem fromDigits_natDigitsAux : ∀ (f n : Nat), n ≤ f → fromDigits (natDigitsAux f n) = n := by
  intro f
  induction f with
  | zero => intro n hn; interval_cases n; simp [natDigitsAux, fromDigits]
  | succ f ih =>
    intro n hn
    cases n with
    | zero => simp [natDigitsAux, fromDigits]
    | succ m =>
      have hdiv : (m + 1) / 10 ≤ f := by
        have := Nat.div_lt_self (Nat.succ_pos m) (by omega : 1 < 10)
        omega
      simp only [natDigitsAux, fromDigits, ih _ hdiv]
      omega

theorem mapDigitChar_inj : ∀ (l1 l2 : List Nat), (∀ d ∈ l1, d < 10) → (∀ d ∈ l2, d < 10) →
    l1.map digitChar = l2.map digitChar → l1 = l2 := by
  intro l1
  induction l1 with
  | nil => intro l2 _ _ h; cases l2 with
    | nil => rfl
    | cons b bs => simp at h
  | cons a as ih =>
    intro l2 h1 h2 h
    cases l2 with
    | nil => simp at h
    | cons b bs =>
      simp only [List.map_cons, List.cons.injEq] at h
      have ha : a = b :=
        digitChar_inj (h1 a (by simp)) (h2 b (by simp)) h.1
      have hs : as = bs :=
        ih bs (fun d hd => h1 d (by simp [hd])) (fun d hd => h2 d (by simp [hd])) h.2
      rw [ha, hs]

theorem natRepr_inj {m n : Nat} (h : natRepr m = natRepr n) : m = n := by
  unfold natRepr at h
  by_cases hm : m = 0 <;> by_cases hn : n = 0
  · omega
  · exfalso
    rw [if_pos hm, if_neg hn] at h
    have h2 := congrArg String.toList h
    rw [List.toList_asString] at h2
    have hlen := congrArg List.length h2
    simp only [List.length_map, List.length_reverse] at hlen
    obtain ⟨d, hd⟩ : ∃ d, natDigitsAux n n = [d] := by
      cases hL : natDigitsAux n n with
      | nil => rw [hL] at hlen; simp at hlen
      | cons d rest =>
        cases rest with
        | nil => exact ⟨d, rfl⟩
        | cons e res => rw [hL] at hlen; simp at hlen
    rw [hd] at h2
    simp only [List.reverse_cons, List.reverse_nil, List.nil_append, List.map_cons,
      List.map_nil] at h2
    have hdc : digitChar d = '0' := by
      have : "0".toList = ['0'] := rfl
      rw [this] at h2
      exact ((List.cons.injEq _ _ _ _).mp h2.symm).1
    have hd10 : d < 10 := natDigitsAux_lt n n d (by rw [hd]; simp)
    have hd0 : d = 0 := digitChar_inj hd10 (by omega) (by rw [hdc]; rfl)
    have hfrom := fromDigits_natDigitsAux n n le_rfl
    rw [hd, hd0] at hfrom
    simp [fromDigits] at hfrom
    omega
  · exfalso
    rw [if_neg hm, if_pos hn] at h
    have h2 := congrArg String.toList h.symm
    rw [List.toList_asString] at h2
    have hlen := congrArg List.length h2
    simp only [List.length_map, List.length_reverse] at hlen
    obtain ⟨d, hd⟩ : ∃ d, natDigitsAux m m = [d] := by
      cases hL : natDigitsAux m m with
      | nil => rw [hL] at hlen; simp at hlen
      | cons d rest =>
        cases rest with
        | nil => exact ⟨d, rfl⟩
        | cons e res => rw [hL] at hlen; simp at hlen
    rw [hd] at h2
    simp only [List.reverse_cons, List.reverse_nil, List.nil_append, List.map_cons,
      List.map_nil] at h2
    have hdc : digitChar d = '0' := by
      have : "0".toList = ['0'] := rfl
      rw [this] at h2
      exact ((List.cons.injEq _ _ _ _).mp h2.symm).1
    have hd10 : d < 10 := natDigitsAux_lt m m d (by rw [hd]; simp)
    have hd0 : d = 0 := digitChar_inj hd10 (by omega) (by rw [hdc]; rfl)
    have hfrom := fromDigits_natDigitsAux m m le_rfl
    rw [hd, hd0] at hfrom
    simp [fromDigits] at hfrom
    omega
  · rw [if_neg hm, if_neg hn] at h
    have h2 : (natDigitsAux m m).reverse.map digitChar
        = (natDigitsAux n n).reverse.map digitChar := by
      have := congrArg String.toList h
      rwa [List.toList_asString, List.toList_asString] at this
    have h3 := mapDigitChar_inj _ _
      (fun d hd => natDigitsAux_lt m m d (List.mem_reverse.mp hd))
      (fun d hd => natDigitsAux_lt n n d (List.mem_reverse.mp hd)) h2
    have h4 : natDigitsAux m m = natDigitsAux n n := by
      have := congrArg List.reverse h3
      simpa using this
    have hm' := fromDigits_natDigitsAux m m le_rfl
    have hn' := fromDigits_natDigitsAux n n le_rfl
    rw [h4] at hm'
    omega

theorem intRepr_inj_nonneg {m n : Int} (hm : 0 ≤ m) (hn : 0 ≤ n)
    (h : intRepr m = intRepr n) : m = n := by
  unfold intRepr at h
  rw [if_neg (by omega), if_neg (by omega)] at h
  have := natRepr_inj h
  omega


theorem wrap16_eq {x : Int} (h1 : -32768 ≤ x) (h2 : x < 32768) : wrap16 x = x := by
  unfold wrap16; omega

theorem writeMem_eq {x a : Int} (m : Int → Int) (v : Int) (h : x = a) :
    writeMem m a v x = v := by simp [writeMem, h]

theorem writeMem_ne {x a : Int} (m : Int → Int) (v : Int) (h : x ≠ a) :
    writeMem m a v x = m x := by simp [writeMem, h]

theorem jumpTaken_JMP (v : Int) : jumpTaken .JMP v = true := rfl

theorem createReturnRoutineAsm_render :
    createReturnRoutineAsm.map Instr.render = returnRoutineLines := by decide

theorem createCallRoutineAsm_render :
    createCallRoutineAsm.map Instr.render = callRoutineLines := by decide

theorem createLtRoutineAsm_render :
    createLtRoutineAsm.map Instr.render = ltRoutineLines := by decide

theorem createGtRoutineAsm_render :
    createGtRoutineAsm.map Instr.render = gtRoutineLines := by decide

theorem createEqRoutineAsm_render :
    createEqRoutineAsm.map Instr.render = eqRoutineLines := by decide

theorem subAsm_render : joinSep "\n" (subAsm.map Instr.render) = sub := by decide

theorem returnFromFunctionAsm_render :
    joinSep "\n" (returnFromFunctionAsm.map Instr.render) ++ "\n" = returnFromFunction := by
  decide

theorem ltProgram_is_site : ltProgram = createLtRoutineAsm ++ ltSiteAsm 0 := by decide

theorem gtProgram_is_site : gtProgram = createGtRoutineAsm ++ gtSiteAsm 0 := by decide

theorem eqProgram_is_site : eqProgram = createEqRoutineAsm ++ eqSiteAsm 0 := by decide

theorem eqSiteAsm_render (st : TransState) :
    joinSep "\n" ((eqSiteAsm st.eqCount).map Instr.render) = (eq st).1 := rfl

theorem gtSiteAsm_render (st : TransState) :
    joinSep "\n" ((gtSiteAsm st.gtCount).map Instr.render) = (gt st).1 := rfl

theorem ltSiteAsm_render (st : TransState) :
    joinSep "\n" ((ltSiteAsm st.ltCount).map Instr.render) = (lt st).1 := rfl

theorem callSiteAsm_render (calleeLabel : String) (numArgs : Int) (ret : String) :
    (callSiteAsm calleeLabel numArgs ret).map Instr.render
      = ["@" ++ calleeLabel, "D=A", locRegister, "M=D",
         "@" ++ intRepr numArgs, "D=A", valueRegister, "M=D",
         "@" ++ ret, "D=A", "@CALL", "0;JMP", "(" ++ ret ++ ")"] := rfl

theorem pushPopAsm_render (cf seg : String)
    (hseg : seg = "local" ∨ seg = "argument" ∨ seg = "this" ∨ seg = "that") (k : Int) :
    (handlePushAsm cf seg k).map Instr.render = handlePushLines cf seg k ∧
    (handlePopAsm cf seg k).map Instr.render = handlePopLines cf seg k := by
  rcases hseg with rfl | rfl | rfl | rfl <;> by_cases hk : k = 0 <;>
    simp [handlePushAsm, handlePushLines, handlePopAsm, handlePopLines, hk,
      Instr.render, Sym.render, Dest.render, Comp.render, locRegister]

/-- C3: executing the assembly emitted for `sub` pops two values and pushes
the value popped second (the second-from-top, `x`) minus the value popped
first (the top of stack, `y`), for a net stack-pointer change of `-1`.
The difference is required to be representable in 16 bits; outside that
range the machine result is the 16-bit wraparound of `x - y`. -/
theorem sub_second_minus_top (mem : Int → Int) (a0 d0 sp0 x y : Int)
    (hsp : mem 0 = sp0) (hx : mem (sp0 - 2) = x) (hy : mem (sp0 - 1) = y)
    (h1 : 256 ≤ sp0) (h2 : sp0 ≤ 32767)
    (hlo : -32768 ≤ x - y) (hhi : x - y < 32768) :
    (run subAsm 6 0 ⟨a0, d0, mem⟩).2.mem (sp0 - 2) = x - y ∧
    (run subAsm 6 0 ⟨a0, d0, mem⟩).2.mem 0 = sp0 - 1 := by
  simp (disch := omega) only [run, subAsm, fetch, resolve, regAddr, labelIdx, evalComp,
    writeDest, applyDest, nextPc, jumpTaken, wrap16_eq, writeMem_eq, writeMem_ne,
    hsp, hx, hy, sub_sub, Int.reduceAdd, Int.reduceSub, Nat.reduceAdd, and_self]

theorem sub_second_minus_top_witness :
    (c3mem 0 = 300 ∧ c3mem (300 - 2) = 20 ∧ c3mem (300 - 1) = 13 ∧
     (256 : Int) ≤ 300 ∧ (300 : Int) ≤ 32767 ∧
     (-32768 : Int) ≤ 20 - 13 ∧ (20 - 13 : Int) < 32768) ∧
    (run subAsm 6 0 ⟨0, 0, c3mem⟩).2.mem (300 - 2) = 20 - 13 ∧
    (run subAsm 6 0 ⟨0, 0, c3mem⟩).2.mem 0 = 300 - 1 :=
  ⟨⟨by decide, by decide, by decide, by decide, by decide, by decide, by decide⟩,
   sub_second_minus_top c3mem 0 0 300 20 13 (by decide) (by decide) (by decide)
     (by decide) (by decide) (by decide) (by decide)⟩

set_option maxHeartbeats 2000000 in
set_option maxRecDepth 8000 in
/-- C4: for every pair of stack values, the per-site jump into the shared
EQ, GT or LT routine leaves exactly `0` (all-zero, false) or `-1`
(all-bits-set, true) on the new top of stack, never an intermediate value,
and moves the stack pointer down by one. -/
theorem comparison_canonical_boolean (mem : Int → Int) (a0 d0 sp0 : Int)
    (hsp : mem 0 = sp0) (h1 : 256 ≤ sp0) (h2 : sp0 ≤ 32767) :
    (((run eqProgram 30 21 ⟨a0, d0, mem⟩).2.mem (sp0 - 2) = 0 ∨
      (run eqProgram 30 21 ⟨a0, d0, mem⟩).2.mem (sp0 - 2) = -1) ∧
     (run eqProgram 30 21 ⟨a0, d0, mem⟩).2.mem 0 = sp0 - 1) ∧
    (((run gtProgram 30 21 ⟨a0, d0, mem⟩).2.mem (sp0 - 2) = 0 ∨
      (run gtProgram 30 21 ⟨a0, d0, mem⟩).2.mem (sp0 - 2) = -1) ∧
     (run gtProgram 30 21 ⟨a0, d0, mem⟩).2.mem 0 = sp0 - 1) ∧
    (((run ltProgram 30 21 ⟨a0, d0, mem⟩).2.mem (sp0 - 2) = 0 ∨
      (run ltProgram 30 21 ⟨a0, d0, mem⟩).2.mem (sp0 - 2) = -1) ∧
     (run ltProgram 30 21 ⟨a0, d0, mem⟩).2.mem 0 = sp0 - 1) := by
  refine ⟨?_, ?_, ?_⟩
  · rcases eq_or_ne (wrap16 (mem (sp0 - 2) - mem (sp0 - 1))) 0 with hcmp | hcmp
    · have hb : jumpTaken .JNE (wrap16 (mem (sp0 - 2) - mem (sp0 - 1))) = false :=
        decide_eq_false (by omega)
      simp (disch := omega) only [run, eqProgram, createEqRoutineAsm,
        List.cons_append, List.nil_append, fetch, resolve, regAddr, labelIdx, evalComp,
        writeDest, applyDest, nextPc, jumpTaken_JMP, hb, Bool.false_eq_true,
        wrap16_eq, writeMem_eq, writeMem_ne, hsp, sub_sub,
        Int.reduceAdd, Int.reduceSub, Int.reduceNeg, Nat.reduceAdd, Int.reduceToNat,
        Nat.cast_ofNat, String.reduceEq, reduceIte, if_true, if_false, ite_true, ite_false,
        eq_self_iff_true, and_self, and_true, true_and, or_true, true_or] <;> omega
    · have hb : jumpTaken .JNE (wrap16 (mem (sp0 - 2) - mem (sp0 - 1))) = true :=
        decide_eq_true hcmp
      simp (disch := omega) only [run, eqProgram, createEqRoutineAsm,
        List.cons_append, List.nil_append, fetch, resolve, regAddr, labelIdx, evalComp,
        writeDest, applyDest, nextPc, jumpTaken_JMP, hb, Bool.false_eq_true,
        wrap16_eq, writeMem_eq, writeMem_ne, hsp, sub_sub,
        Int.reduceAdd, Int.reduceSub, Int.reduceNeg, Nat.reduceAdd, Int.reduceToNat,
        Nat.cast_ofNat, String.reduceEq, reduceIte, if_true, if_false, ite_true, ite_false,
        eq_self_iff_true, and_self, and_true, true_and, or_true, true_or] <;> omega
  · rcases le_or_lt (wrap16 (mem (sp0 - 2) - mem (sp0 - 1))) 0 with hcmp | hcmp
    · have hb : jumpTaken .JLE (wrap16 (mem (sp0 - 2) - mem (sp0 - 1))) = true :=
        decide_eq_true hcmp
      simp (disch := omega) only [run, gtProgram, createGtRoutineAsm,
        List.cons_append, List.nil_append, fetch, resolve, regAddr, labelIdx, evalComp,
        writeDest, applyDest, nextPc, jumpTaken_JMP, hb, Bool.false_eq_true,
        wrap16_eq, writeMem_eq, writeMem_ne, hsp, sub_sub,
        Int.reduceAdd, Int.reduceSub, Int.reduceNeg, Nat.reduceAdd, Int.reduceToNat,
        Nat.cast_ofNat, String.reduceEq, reduceIte, if_true, if_false, ite_true, ite_false,
        eq_self_iff_true, and_self, and_true, true_and, or_true, true_or] <;> omega
    · have hb : jumpTaken .JLE (wrap16 (mem (sp0 - 2) - mem (sp0 - 1))) = false :=
        decide_eq_false (by omega)
      simp (disch := omega) only [run, gtProgram, createGtRoutineAsm,
        List.cons_append, List.nil_append, fetch, resolve, regAddr, labelIdx, evalComp,
        writeDest, applyDest, nextPc, jumpTaken_JMP, hb, Bool.false_eq_true,
        wrap16_eq, writeMem_eq, writeMem_ne, hsp, sub_sub,
        Int.reduceAdd, Int.reduceSub, Int.reduceNeg, Nat.reduceAdd, Int.reduceToNat,
        Nat.cast_ofNat, String.reduceEq, reduceIte, if_true, if_false, ite_true, ite_false,
        eq_self_iff_true, and_self, and_true, true_and, or_true, true_or] <;> omega
  · rcases le_or_lt 0 (wrap16 (mem (sp0 - 2) - mem (sp0 - 1))) with hcmp | hcmp
    · have hb : jumpTaken .JGE (wrap16 (mem (sp0 - 2) - mem (sp0 - 1))) = true :=
        decide_eq_true hcmp
      simp (disch := omega) only [run, ltProgram, createLtRoutineAsm,
        List.cons_append, List.nil_append, fetch, resolve, regAddr, labelIdx, evalComp,
        writeDest, applyDest, nextPc, jumpTaken_JMP, hb, Bool.false_eq_true,
        wrap16_eq, writeMem_eq, writeMem_ne, hsp, sub_sub,
        Int.reduceAdd, Int.reduceSub, Int.reduceNeg, Nat.reduceAdd, Int.reduceToNat,
        Nat.cast_ofNat, String.reduceEq, reduceIte, if_true, if_false, ite_true, ite_false,
        eq_self_iff_true, and_self, and_true, true_and, or_true, true_or] <;> omega
    · have hb : jumpTaken .JGE (wrap16 (mem (sp0 - 2) - mem (sp0 - 1))) = false :=
        decide_eq_false (by omega)
      simp (disch := omega) only [run, ltProgram, createLtRoutineAsm,
        List.cons_append, List.nil_append, fetch, resolve, regAddr, labelIdx, evalComp,
        writeDest, applyDest, nextPc, jumpTaken_JMP, hb, Bool.false_eq_true,
        wrap16_eq, writeMem_eq, writeMem_ne, hsp, sub_sub,
        Int.reduceAdd, Int.reduceSub, Int.reduceNeg, Nat.reduceAdd, Int.reduceToNat,
        Nat.cast_ofNat, String.reduceEq, reduceIte, if_true, if_false, ite_true, ite_false,
        eq_self_iff_true, and_self, and_true, true_and, or_true, true_or] <;> omega

theorem comparison_canonical_boolean_witness :
    (c4mem 0 = 302 ∧ (256 : Int) ≤ 302 ∧ (302 : Int) ≤ 32767) ∧
    (((run eqProgram 30 21 ⟨0, 0, c4mem⟩).2.mem (302 - 2) = 0 ∨
      (run eqProgram 30 21 ⟨0, 0, c4mem⟩).2.mem (302 - 2) = -1) ∧
     (run eqProgram 30 21 ⟨0, 0, c4mem⟩).2.mem 0 = 302 - 1) ∧
    (((run gtProgram 30 21 ⟨0, 0, c4mem⟩).2.mem (302 - 2) = 0 ∨
      (run gtProgram 30 21 ⟨0, 0, c4mem⟩).2.mem (302 - 2) = -1) ∧
     (run gtProgram 30 21 ⟨0, 0, c4mem⟩).2.mem 0 = 302 - 1) ∧
    (((run ltProgram 30 21 ⟨0, 0, c4mem⟩).2.mem (302 - 2) = 0 ∨
      (run ltProgram 30 21 ⟨0, 0, c4mem⟩).2.mem (302 - 2) = -1) ∧
     (run ltProgram 30 21 ⟨0, 0, c4mem⟩).2.mem 0 = 302 - 1) :=
  ⟨⟨by decide, by decide, by decide⟩,
   comparison_canonical_boolean c4mem 0 0 302 (by decide) (by decide) (by decide)⟩

set_option maxHeartbeats 4000000 in
set_option maxRecDepth 8000 in
/-- C1: a `call` with `argCount = n ≥ 0` (callee address and argument count
stashed in `R13`/`R14`, jump into the shared CALL routine) followed
immediately by the callee's `return` (the shared RETURN routine) sets the
stack pointer to exactly `(stack pointer before call) - n + 1`, restores
`LCL`, `ARG`, `THIS`, `THAT` (cells 1-4) to their pre-call values, and
leaves the callee's return value — here the top of the callee's working
stack at the moment of return, which is the saved `THAT` value — at the
new top of the caller-visible stack, cell `sp0 - n`. -/
theorem call_return_restores_frame (mem : Int → Int) (a0 d0 sp0 n : Int)
    (hsp : mem 0 = sp0) (hn : 0 ≤ n)
    (h1 : 256 ≤ sp0 - n) (h2 : sp0 + 5 ≤ 32767) :
    (run (progC1 n) 140 103 ⟨a0, d0, mem⟩).2.mem 0 = sp0 - n + 1 ∧
    (run (progC1 n) 140 103 ⟨a0, d0, mem⟩).2.mem 1 = mem 1 ∧
    (run (progC1 n) 140 103 ⟨a0, d0, mem⟩).2.mem 2 = mem 2 ∧
    (run (progC1 n) 140 103 ⟨a0, d0, mem⟩).2.mem 3 = mem 3 ∧
    (run (progC1 n) 140 103 ⟨a0, d0, mem⟩).2.mem 4 = mem 4 ∧
    (run (progC1 n) 140 103 ⟨a0, d0, mem⟩).2.mem (sp0 - n) = mem 4 := by
  simp (disch := omega) only [run, progC1, createReturnRoutineAsm, createCallRoutineAsm,
    returnFromFunctionAsm, callSiteAsm, List.cons_append, List.nil_append,
    fetch, resolve, regAddr, labelIdx, evalComp,
    writeDest, applyDest, nextPc, jumpTaken, wrap16_eq, writeMem_eq, writeMem_ne,
    hsp, sub_sub, Int.reduceAdd, Int.reduceSub, Int.reduceNeg, Nat.reduceAdd,
    Int.reduceToNat, Nat.cast_ofNat, String.reduceEq, reduceIte,
    ne_eq, not_false_eq_true, not_true, ite_true, ite_false,
    and_self, and_true, true_and, or_true, true_or] <;> omega

theorem call_return_restores_frame_witness :
    (c1mem 0 = 260 ∧ (0 : Int) ≤ 2 ∧ (256 : Int) ≤ 260 - 2 ∧ (260 : Int) + 5 ≤ 32767) ∧
    (run (progC1 2) 140 103 ⟨0, 0, c1mem⟩).2.mem 0 = 260 - 2 + 1 ∧
    (run (progC1 2) 140 103 ⟨0, 0, c1mem⟩).2.mem 1 = c1mem 1 ∧
    (run (progC1 2) 140 103 ⟨0, 0, c1mem⟩).2.mem 2 = c1mem 2 ∧
    (run (progC1 2) 140 103 ⟨0, 0, c1mem⟩).2.mem 3 = c1mem 3 ∧
    (run (progC1 2) 140 103 ⟨0, 0, c1mem⟩).2.mem 4 = c1mem 4 ∧
    (run (progC1 2) 140 103 ⟨0, 0, c1mem⟩).2.mem (260 - 2) = c1mem 4 :=
  ⟨⟨by decide, by decide, by decide, by decide⟩,
   call_return_restores_frame c1mem 0 0 260 2 (by decide) (by decide)
     (by decide) (by decide)⟩

set_option maxHeartbeats 4000000 in
set_option maxRecDepth 8000 in
/-- C9: for every segment in local, argument, this, that and every index
`k ≥ 0`, `push segment k` immediately followed by `pop segment k` leaves
the addressed segment slot (`RAM[base + k]`, stated as `k + base` the way
the emitted address arithmetic computes it) unchanged, and leaves every
cell other than the scratch register `R13` and the transient cell at the
old top of stack (`RAM[sp0]`, above the live stack) unchanged; in
particular the stack pointer and every live stack slot are unchanged. -/
theorem push_pop_roundtrip (cf seg : String)
    (hseg : seg = "local" ∨ seg = "argument" ∨ seg = "this" ∨ seg = "that")
    (mem : Int → Int) (a0 d0 sp0 base k : Int)
    (hsp : mem 0 = sp0) (hbase : mem (segReg seg) = base)
    (hk : 0 ≤ k) (h1 : 256 ≤ sp0) (h2 : sp0 ≤ 32766)
    (h3 : 256 ≤ base) (h4 : base + k ≤ 32767) :
    ∀ x : Int, (x = k + base ∨ (x ≠ 13 ∧ x ≠ sp0)) →
      (run (pushPopProg cf seg k) 40 0 ⟨a0, d0, mem⟩).2.mem x = mem x := by
  rcases hseg with rfl | rfl | rfl | rfl <;> simp only [segReg] at hbase <;>
    by_cases hk0 : k = 0 <;>
    simp (disch := omega) only [run, pushPopProg, handlePushAsm, handlePopAsm,
      List.cons_append, List.nil_append, List.append_nil,
      fetch, resolve, regAddr, labelIdx, evalComp,
      writeDest, applyDest, nextPc, jumpTaken, wrap16_eq, writeMem_eq, writeMem_ne,
      hsp, hbase, hk0, zero_add, add_zero, sub_sub,
      Int.reduceAdd, Int.reduceSub, Int.reduceNeg, Nat.reduceAdd, Int.reduceToNat,
      Nat.cast_ofNat, String.reduceEq, reduceIte, eq_self_iff_true,
      ne_eq, not_false_eq_true, not_true, if_true, if_false, ite_true, ite_false,
      and_self, and_true, true_and, or_true, true_or] <;>
    intro x hx <;>
    rcases eq_or_ne x (k + base) with hxb | hxb <;>
    rcases eq_or_ne x 0 with hx0 | hx0 <;>
    simp (disch := omega) only [writeMem_eq, writeMem_ne, hsp, hbase, hk0,
      hxb, hx0, zero_add] <;>
    omega

/-- C2 counterexample: translating `function foo 0` while the current
source unit is `A.vm` and translating it while the current source unit is
`B.vm` produce identical output — in particular the identical entry symbol
`(Prog.foo)` — so two identically named functions in two different source
units of the same translation collide instead of getting distinct symbols. -/
theorem function_same_name_two_units_cex :
    parseCommandParts "Prog" "A.vm" ["function", "foo", "0"] initialState
      = parseCommandParts "Prog" "B.vm" ["function", "foo", "0"] initialState ∧
    parseCommandParts "Prog" "A.vm" ["function", "foo", "0"] initialState
      = .ok ("(Prog.foo)" ++ "\n", ⟨⟨"foo", 0⟩, 0, 0, 0⟩) :=
  ⟨rfl, rfl⟩

/-- C2 (amended): the entry label emitted for `function name nVars` is the
surface name prefixed by the program/module name (`getFolderName()`), the
same prefix for every source unit of the translation — the emission does
not depend on the current source unit at all, so identically named
functions in two different units of one translation receive the same
symbol, while functions with distinct surface names receive distinct
symbols. -/
theorem function_entry_program_prefixed (folder u1 u2 name name2 nVars : String)
    (st : TransState) (k : Int) (hk : atoi nVars = some k) (hne : name ≠ name2) :
    parseCommandParts folder u1 ["function", name, nVars] st
      = parseCommandParts folder u2 ["function", name, nVars] st ∧
    functionEntryLabel folder name = "(" ++ (folder ++ "." ++ name) ++ ")" ∧
    functionEntryLabel folder name ≠ functionEntryLabel folder name2 := by
  refine ⟨rfl, rfl, ?_⟩
  intro h
  exact hne (strCancelLeft (strCancelLeft (strCancelRight h)))

theorem function_entry_program_prefixed_witness :
    (atoi "0" = some 0 ∧ "foo" ≠ "bar") ∧
    (parseCommandParts "Prog" "A.vm" ["function", "foo", "0"] initialState
      = parseCommandParts "Prog" "B.vm" ["function", "foo", "0"] initialState ∧
    functionEntryLabel "Prog" "foo" = "(" ++ ("Prog" ++ "." ++ "foo") ++ ")" ∧
    functionEntryLabel "Prog" "foo" ≠ functionEntryLabel "Prog" "bar") :=
  ⟨⟨by decide, by decide⟩,
   function_entry_program_prefixed "Prog" "A.vm" "B.vm" "foo" "bar" "0"
     initialState 0 (by decide) (by decide)⟩

/-- C5 counterexample: after `function foo 0` in program `Prog`, the
emitted symbol for `label x` is `foo$x` — the surface function name with
no program qualification — and not the claimed
`<fullyQualifiedFunctionName>$<labelName>` form `Prog.foo$x`. -/
theorem label_not_program_qualified_cex :
    parseCommandParts "Prog" "Foo.vm" ["function", "foo", "0"] initialState
      = .ok ("(Prog.foo)" ++ "\n", ⟨⟨"foo", 0⟩, 0, 0, 0⟩) ∧
    parseCommandParts "Prog" "Foo.vm" ["label", "x"] ⟨⟨"foo", 0⟩, 0, 0, 0⟩
      = .ok ("(foo$x)" ++ "\n", ⟨⟨"foo", 0⟩, 0, 0, 0⟩) ∧
    ("(foo$x)" ++ "\n" : String)
      ≠ "(" ++ ("Prog" ++ "." ++ "foo") ++ "$" ++ "x" ++ ")" ++ "\n" :=
  ⟨rfl, rfl, by decide⟩

/-- C5 (amended): the symbol emitted for `label`, `goto` and `if-goto` is
`<surfaceFunctionName>$<labelName>`, built from the unqualified current
function name; two identically named labels in enclosing functions with
distinct surface names still get distinct symbols. -/
theorem label_scoped_by_surface_function (st1 st2 : TransState) (l : String)
    (hne : st1.funcStack.current ≠ st2.funcStack.current) :
    label st1 l = "(" ++ constructedLabelOf st1 l ++ ")" ++ "\n" ∧
    constructedLabelOf st1 l = st1.funcStack.current ++ "$" ++ l ∧
    gotoLabel st1 l = "@" ++ constructedLabelOf st1 l ++ "\n" ++ "0;JMP" ++ "\n" ∧
    constructedLabelOf st1 l ≠ constructedLabelOf st2 l ∧
    label st1 l ≠ label st2 l := by
  refine ⟨rfl, rfl, rfl, ?_, ?_⟩
  · intro h
    exact hne (strCancelRight (strCancelRight h))
  · intro h
    exact hne (strCancelRight (strCancelRight (strCancelLeft
      (strCancelRight (strCancelRight h)))))

theorem label_scoped_by_surface_function_witness :
    ("foo" ≠ "bar") ∧
    (label ⟨⟨"foo", 0⟩, 0, 0, 0⟩ "x"
        = "(" ++ constructedLabelOf ⟨⟨"foo", 0⟩, 0, 0, 0⟩ "x" ++ ")" ++ "\n" ∧
     constructedLabelOf ⟨⟨"foo", 0⟩, 0, 0, 0⟩ "x" = "foo" ++ "$" ++ "x" ∧
     gotoLabel ⟨⟨"foo", 0⟩, 0, 0, 0⟩ "x"
        = "@" ++ constructedLabelOf ⟨⟨"foo", 0⟩, 0, 0, 0⟩ "x" ++ "\n" ++ "0;JMP" ++ "\n" ∧
     constructedLabelOf ⟨⟨"foo", 0⟩, 0, 0, 0⟩ "x"
        ≠ constructedLabelOf ⟨⟨"bar", 0⟩, 0, 0, 0⟩ "x" ∧
     label ⟨⟨"foo", 0⟩, 0, 0, 0⟩ "x" ≠ label ⟨⟨"bar", 0⟩, 0, 0, 0⟩ "x") :=
  ⟨by decide,
   label_scoped_by_surface_function ⟨⟨"foo", 0⟩, 0, 0, 0⟩ ⟨⟨"bar", 0⟩, 0, 0, 0⟩ "x"
     (by decide)⟩

/-- C6 counterexample: after `function f 0`, `call a 0`, `call a 0`,
`function g 0`, the next call — the FIRST call issued from caller `g` —
uses return label `Prog.g$ret2` (the counter is translation-global and
already at 2), not the `Prog.g$ret0` that a per-caller counter would
give. -/
theorem call_counter_not_per_caller_cex :
    parseCommandParts "Prog" "F.vm" ["function", "f", "0"] initialState
      = .ok ("(Prog.f)" ++ "\n", ⟨⟨"f", 0⟩, 0, 0, 0⟩) ∧
    (parseCommandParts "Prog" "F.vm" ["call", "a", "0"] ⟨⟨"f", 0⟩, 0, 0, 0⟩).map Prod.snd
      = .ok ⟨⟨"f", 1⟩, 0, 0, 0⟩ ∧
    (parseCommandParts "Prog" "F.vm" ["call", "a", "0"] ⟨⟨"f", 1⟩, 0, 0, 0⟩).map Prod.snd
      = .ok ⟨⟨"f", 2⟩, 0, 0, 0⟩ ∧
    parseCommandParts "Prog" "F.vm" ["function", "g", "0"] ⟨⟨"f", 2⟩, 0, 0, 0⟩
      = .ok ("(Prog.g)" ++ "\n", ⟨⟨"g", 2⟩, 0, 0, 0⟩) ∧
    returnLabel "Prog" ⟨⟨"g", 2⟩, 0, 0, 0⟩ = "Prog.g$ret2" ∧
    ("Prog.g$ret2" : String) ≠ "Prog.g$ret0" :=
  ⟨rfl, rfl, rfl, rfl, rfl, by decide⟩

/-- C6 (amended): the return-address symbol emitted by `callFunction` is
`<programName>.<callingFunctionName>$ret<N>` where `N` is the single
translation-global `returnCounter`, monotonically incremented by every
call site of the whole translation (not a per-caller counter); in
particular two calls issued in succession from the same caller still get
two distinct return-address labels. -/
theorem call_returnLabel_global_counter (folder name nArgs : String) (st : TransState)
    (k : Int) (hk : atoi nArgs = some k) (hc : 0 ≤ st.funcStack.returnCounter) :
    callFunction folder name nArgs st
      = .ok (joinSep "\n"
          ["@" ++ (folder ++ "." ++ name), "D=A", locRegister, "M=D",
           "@" ++ intRepr k, "D=A", valueRegister, "M=D",
           "@" ++ returnLabel folder st, "D=A", "@CALL", "0;JMP",
           "(" ++ returnLabel folder st ++ ")"] ++ "\n",
          { st with funcStack := { st.funcStack with
              returnCounter := st.funcStack.returnCounter + 1 } }) ∧
    returnLabel folder st
      = folder ++ "." ++ st.funcStack.current ++ "$ret"
          ++ intRepr st.funcStack.returnCounter ∧
    returnLabel folder { st with funcStack := { st.funcStack with
        returnCounter := st.funcStack.returnCounter + 1 } } ≠ returnLabel folder st := by
  refine ⟨?_, rfl, ?_⟩
  · unfold callFunction
    rw [hk]
  · intro h
    unfold returnLabel at h
    dsimp only at h
    have h2 := strCancelLeft h
    have h3 := intRepr_inj_nonneg (by omega) hc h2
    omega

theorem call_returnLabel_global_counter_witness :
    (atoi "0" = some 0 ∧ (0 : Int) ≤ (initialState.funcStack).returnCounter) ∧
    (callFunction "Prog" "a" "0" initialState
      = .ok (joinSep "\n"
          ["@" ++ ("Prog" ++ "." ++ "a"), "D=A", locRegister, "M=D",
           "@" ++ intRepr 0, "D=A", valueRegister, "M=D",
           "@" ++ returnLabel "Prog" initialState, "D=A", "@CALL", "0;JMP",
           "(" ++ returnLabel "Prog" initialState ++ ")"] ++ "\n",
          { initialState with funcStack := { initialState.funcStack with
              returnCounter := initialState.funcStack.returnCounter + 1 } }) ∧
    returnLabel "Prog" initialState
      = "Prog" ++ "." ++ initialState.funcStack.current ++ "$ret"
          ++ intRepr initialState.funcStack.returnCounter ∧
    returnLabel "Prog" { initialState with funcStack := { initialState.funcStack with
        returnCounter := initialState.funcStack.returnCounter + 1 } }
      ≠ returnLabel "Prog" initialState) :=
  ⟨⟨by decide, by decide⟩,
   call_returnLabel_global_counter "Prog" "a" "0" initialState 0 (by decide) (by decide)⟩

/-- C7 (code bug): a push with an unknown segment name and a pop with a
`pointer` index outside 0 and 1 are NOT translation errors in the current
revision: `handlePush`/`handlePop` have no default `switch` case (and no
error return at all), so the command is accepted and the emitted block is
a single empty line. The spec — and every earlier revision, which routed
segments through a `location` function with an error default and a
`pointer` index check — treats these as fatal translation errors. -/
theorem invalid_segment_not_rejected (folder file : String) (st : TransState) :
    parseCommandParts folder file ["push", "bogus", "3"] st = .ok ("\n", st) ∧
    parseCommandParts folder file ["pop", "pointer", "2"] st = .ok ("\n", st) ∧
    parseCommandParts folder file ["push", "pointer", "5"] st = .ok ("\n", st) :=
  ⟨rfl, rfl, rfl⟩

/-- C8 counterexample: a `label` command translated outside any function
(initial state) is accepted — emitted under the default `Sys.init`
context — and a `return` outside any function is likewise accepted, so no
structural-context error exists. -/
theorem outside_function_accepted_cex :
    parseCommandParts "Prog" "Foo.vm" ["label", "LOOP"] initialState
      = .ok ("(Sys.init$LOOP)" ++ "\n", initialState) ∧
    parseCommandParts "Prog" "Foo.vm" ["return"] initialState
      = .ok ("@RETURN" ++ "\n" ++ "0;JMP" ++ "\n", initialState) :=
  ⟨rfl, rfl⟩

/-- C8 (amended): `label`, `goto` and `if-goto` outside any enclosing
function, and `return` outside any function, are not errors: the
translator never checks for an enclosing function and scopes such labels
to the default context `Sys.init` (the initial `funcStack.current`),
while `return` always emits the jump to the shared RETURN routine. -/
theorem outside_function_no_error (folder file l : String) :
    parseCommandParts folder file ["label", l] initialState
      = .ok (label initialState l, initialState) ∧
    parseCommandParts folder file ["goto", l] initialState
      = .ok (gotoLabel initialState l, initialState) ∧
    parseCommandParts folder file ["if-goto", l] initialState
      = .ok (ifGoto initialState l, initialState) ∧
    parseCommandParts folder file ["return"] initialState
      = .ok (returnFromFunction, initialState) ∧
    constructedLabelOf initialState l = "Sys.init" ++ "$" ++ l :=
  ⟨rfl, rfl, rfl, rfl, rfl⟩

/-- C10: `pop constant k` is accepted for every index string parsing to a
`k ≥ 0`: `parseCommand` dispatches it to `handlePop`, whose `switch` has
no `constant` case, so the emitted block is the single empty line `"\n"`
and no error is produced and no state is changed. -/
theorem pop_constant_accepted (folder file ks : String) (st : TransState) (k : Int)
    (hk : atoi ks = some k) (hk0 : 0 ≤ k) :
    parseCommandParts folder file ["pop", "constant", ks] st = .ok ("\n", st) := by
  unfold parseCommandParts
  simp only [List.getD, List.get?, Option.getD, hk, handlePop, handlePopLines, joinSep,
    String.reduceEq, reduceIte, List.length_cons, List.length_nil, Nat.reduceAdd] <;> rfl

theorem pop_constant_accepted_witness :
    (atoi "7" = some 7 ∧ (0 : Int) ≤ 7) ∧
    parseCommandParts "Prog" "F.vm" ["pop", "constant", "7"] initialState
      = .ok ("\n", initialState) :=
  ⟨⟨by decide, by decide⟩,
   pop_constant_accepted "Prog" "F.vm" "7" initialState 7 (by decide) (by decide)⟩

theorem push_pop_roundtrip_witness :
    (c9mem 0 = 300 ∧ c9mem (segReg "local") = 400 ∧ (0 : Int) ≤ 2 ∧
     (256 : Int) ≤ 300 ∧ (300 : Int) ≤ 32766 ∧ (256 : Int) ≤ 400 ∧
     (400 : Int) + 2 ≤ 32767) ∧
    (run (pushPopProg "Foo.vm" "local" 2) 40 0 ⟨0, 0, c9mem⟩).2.mem (2 + 400)
      = c9mem (2 + 400) ∧
    (run (pushPopProg "Foo.vm" "local" 2) 40 0 ⟨0, 0, c9mem⟩).2.mem 0 = c9mem 0 :=
  ⟨⟨by decide, by decide, by decide, by decide, by decide, by decide, by decide⟩,
   push_pop_roundtrip "Foo.vm" "local" (Or.inl rfl) c9mem 0 0 300 400 2
     (by decide) (by decide) (by decide) (by decide) (by decide) (by decide) (by decide)
     (2 + 400) (Or.inl rfl),
   push_pop_roundtrip "Foo.vm" "local" (Or.inl rfl) c9mem 0 0 300 400 2
     (by decide) (by decide) (by decide) (by decide) (by decide) (by decide) (by decide)
     0 (Or.inr ⟨by decide, by decide⟩)⟩

end VMT
